import Mathlib

/-!
Shallow embedding of the Streamline native bridge
(src/native/NvidiaReflex/*.cpp).

The vendor SDK (`sl*` entry points) and the host engine's graphics
interfaces are external collaborators: they are modelled as oracles
(`Sdk`, `Host`) whose fields give the result of each outbound call, and
every bridge function additionally returns the list of SDK calls it made,
so that "makes no call into the vendor SDK" is the statement that this
trace is empty.  The global mutable state of the plugin (the
`g_*` variables of StreamlineCommon.cpp plus the file statics of
StreamlineInit.cpp and StreamlineDLSSCore.cpp) is the record `GState`.
File/console logging and the log-throttling counters that only gate
logging are omitted, as is the mutex (single-threaded semantics).
-/

namespace Streamline

/-- `sl::Result`; `eOk = 0`, any other value is a failure code. -/
abbrev SlResult := Nat

/-- `sl::Result::eOk`. -/
def eOk : SlResult := 0

/-- Opaque feature identifiers from the external SDK header (values are
only required to be distinct). -/
def kFeatureDLSS : Nat := 0

def kFeatureDLSS_G : Nat := 1

def kFeatureReflex : Nat := 2

def kFeaturePCL : Nat := 3

/-- `sl::PCLMarker::eMaximum`, the exclusive upper bound of the marker
enumeration (external sl_pcl.h header). -/
def pclMarkerMaximum : Nat := 17

/-- `sl::kReflexFrameReportCount`: size of the frame-report ring. -/
def kReflexFrameReportCount : Nat := 64

/-- `kDLSSEventID_Evaluate = 0xD155E001` (StreamlineCommon.h). -/
def kDLSSEventID_Evaluate : Int := 0xD155E001

/-- Host renderer type (`UnityGfxRenderer`), restricted to the cases the
code distinguishes. -/
inductive GfxRenderer where
  | null
  | d3d11
  | d3d12
  | other
deriving DecidableEq, Repr

/-- Host device-event type (`UnityGfxDeviceEventType`). -/
inductive DeviceEvent where
  | initEvent
  | shutdownEvent
  | beforeReset
  | afterReset
deriving DecidableEq, Repr

/-- One outbound call into the vendor SDK, with the arguments that the
bridge computes itself (frame index, viewport, marker, ...). -/
inductive SdkCall where
  | slInit
  | slSetD3DDevice
  | slShutdown
  | slIsFeatureSupported (feature : Nat)
  | slGetNewFrameToken (frameIndex : Nat)
  | slPCLSetMarker (marker : Nat) (frameIndex : Nat)
  | slReflexSleep (frameIndex : Nat)
  | slReflexSetOptions (mode : Nat)
  | slReflexGetState
  | slSetConstants (frameIndex : Nat) (viewport : Nat)
  | slSetTagForFrame (frameIndex : Nat) (viewport : Nat) (bufferType : Nat)
  | slDLSSSetOptions (viewport : Nat) (mode : Nat)
  | slDLSSGetOptimalSettings (mode : Nat)
  | slEvaluateFeature (feature : Nat) (frameIndex : Nat)
  | slDLSSGSetOptions (viewport : Nat) (mode : Nat) (frames : Nat)
  | slGetFeatureFunction (feature : Nat) (name : String)
deriving DecidableEq, Repr

/-- One entry of `sl::ReflexState::frameReport` (timestamps in
microseconds, `uint64_t` in the SDK). -/
structure FrameReport where
  frameID : Nat
  simStartTime : Nat
  simEndTime : Nat
  renderSubmitStartTime : Nat
  renderSubmitEndTime : Nat
  presentStartTime : Nat
  presentEndTime : Nat
  driverStartTime : Nat
  driverEndTime : Nat
  osRenderQueueStartTime : Nat
  osRenderQueueEndTime : Nat
  gpuRenderStartTime : Nat
  gpuRenderEndTime : Nat
deriving DecidableEq, Repr

/-- `sl::ReflexState` as consumed by the bridge; the report ring is the
list of its `kReflexFrameReportCount` array entries in order. -/
structure ReflexState where
  lowLatencyAvailable : Bool
  flashIndicatorDriverControlled : Bool
  latencyReportAvailable : Bool
  frameReport : List FrameReport
deriving DecidableEq, Repr

/-- `sl::DLSSOptimalSettings` fields the bridge copies out. -/
structure DLSSOptimalSettings where
  optimalRenderWidth : Nat
  optimalRenderHeight : Nat
  renderWidthMin : Nat
  renderHeightMin : Nat
  renderWidthMax : Nat
  renderHeightMax : Nat
deriving DecidableEq, Repr

/-- Oracle for the vendor SDK: the result each outbound entry point
would return, as a function of the arguments the bridge passes.  A
frame-token acquisition yields a result code and whether the returned
token pointer is non-null. -/
structure Sdk where
  initResult : SlResult
  setDeviceResult : SlResult
  featureSupported : Nat → Bool
  newFrameToken : Nat → SlResult × Bool
  pclSetMarkerResult : Nat → Nat → SlResult
  reflexSleepResult : Nat → SlResult
  reflexSetOptionsResult : Nat → SlResult
  reflexGetState : SlResult × ReflexState
  setConstantsResult : Nat → Nat → SlResult
  setTagResult : Nat → Nat → Nat → SlResult
  dlssSetOptionsResult : Nat → Nat → SlResult
  dlssGetOptimalSettings : Nat → SlResult × DLSSOptimalSettings
  evaluateResult : Nat → Nat → SlResult
  dlssgSetOptionsResult : Nat → Nat → Nat → SlResult
  getFeatureFunction : Nat → String → SlResult × Bool

/-- A Unity D3D12 interface (v6 or v7): the device and command-queue
pointers its accessors return (`none` = null pointer). -/
structure D3D12Iface where
  device : Option Nat
  queue : Option Nat
deriving DecidableEq, Repr

/-- Oracle for the host engine: which graphics interfaces
`IUnityInterfaces::Get` yields, the renderer type, and the command
recording state the render thread reports. -/
structure Host where
  renderer : GfxRenderer
  v7 : Option D3D12Iface
  v6 : Option D3D12Iface
  d3d11 : Option (Option Nat)
  cmdRecordingOk : Bool
  cmdRecordingList : Option Nat
deriving DecidableEq, Repr

/-- The plugin's global mutable state: the `g_*` globals of
StreamlineCommon.cpp, the device/renderer statics of StreamlineInit.cpp
and the constants/pending statics of StreamlineDLSSCore.cpp. -/
structure GState where
  initialized : Bool
  reflexSupported : Bool
  pclSupported : Bool
  dlssSupported : Bool
  dlssgSupported : Bool
  currentMode : Nat
  dlssMode : Nat
  dlssgMode : Nat
  numFramesToGenerate : Nat
  frameId : Nat
  dlssViewport : Nat
  dlssConstants : Nat
  dlssConstantsValid : Bool
  pendingReady : Bool
  pendingFrameIndex : Nat
  lastErrorCode : Int
  lastErrorMessage : String
  d3d12Device : Option Nat
  d3d12Queue : Option Nat
  d3d11Device : Option Nat
  d3d12v7Ptr : Bool
  rendererType : GfxRenderer
deriving DecidableEq, Repr

/-- State at plugin load (StreamlineCommon.cpp initializers). -/
def initialState : GState where
  initialized := false
  reflexSupported := false
  pclSupported := false
  dlssSupported := false
  dlssgSupported := false
  currentMode := 0
  dlssMode := 0
  dlssgMode := 0
  numFramesToGenerate := 1
  frameId := 0
  dlssViewport := 0
  dlssConstants := 0
  dlssConstantsValid := false
  pendingReady := false
  pendingFrameIndex := 0
  lastErrorCode := 0
  lastErrorMessage := "Not initialized yet"
  d3d12Device := none
  d3d12Queue := none
  d3d11Device := none
  d3d12v7Ptr := false
  rendererType := GfxRenderer.null

/-- Result of a `bool`-returning exported function. -/
structure BoolRes where
  ret : Bool
  st : GState
  calls : List SdkCall
deriving DecidableEq, Repr

/-- Result of a `void` exported function. -/
structure UnitRes where
  st : GState
  calls : List SdkCall
deriving DecidableEq, Repr

/-- `(uint32_t)(g_frameId & 0xFFFFFFFF)`. -/
def frameIndex32 (s : GState) : Nat := s.frameId % 2 ^ 32

/-- `SLReflex_SetMode` (StreamlineReflex.cpp). -/
def SLReflex_SetMode (sdk : Sdk) (s : GState) (mode : Int) : BoolRes :=
  if !s.initialized || !s.reflexSupported then ⟨false, s, []⟩
  else if mode = 0 ∨ mode = 1 ∨ mode = 2 then
    let newMode : Nat := mode.toNat
    if sdk.reflexSetOptionsResult newMode = eOk then
      ⟨true, { s with currentMode := newMode }, [SdkCall.slReflexSetOptions newMode]⟩
    else
      ⟨false, s, [SdkCall.slReflexSetOptions newMode]⟩
  else ⟨false, s, []⟩

/-- `SLReflex_GetMode` (StreamlineReflex.cpp), a pure read. -/
def SLReflex_GetMode (s : GState) : Nat := s.currentMode

/-- `SLReflex_GetState` (StreamlineReflex.cpp); the two out-parameters
are returned as an optional pair (written only on success, given
non-null pointers). -/
def SLReflex_GetState (sdk : Sdk) (s : GState) :
    (Bool × Option (Bool × Bool)) × GState × List SdkCall :=
  if !s.initialized then ((false, none), s, [])
  else
    let (r, st) := sdk.reflexGetState
    if r = eOk then
      ((true, some (st.lowLatencyAvailable, st.flashIndicatorDriverControlled)),
        s, [SdkCall.slReflexGetState])
    else ((false, none), s, [SdkCall.slReflexGetState])

/-- `SLReflex_BeginFrame` (StreamlineReflex.cpp): `g_frameId++` on a
`uint64_t`. -/
def SLReflex_BeginFrame (s : GState) : UnitRes :=
  if !s.initialized then ⟨s, []⟩
  else ⟨{ s with frameId := (s.frameId + 1) % 2 ^ 64 }, []⟩

/-- `SLReflex_Sleep` (StreamlineReflex.cpp). -/
def SLReflex_Sleep (sdk : Sdk) (s : GState) : UnitRes :=
  if !s.initialized then ⟨s, []⟩
  else
    let fi := frameIndex32 s
    let (r, tok) := sdk.newFrameToken fi
    if r = eOk ∧ tok then
      ⟨s, [SdkCall.slGetNewFrameToken fi, SdkCall.slReflexSleep fi]⟩
    else ⟨s, [SdkCall.slGetNewFrameToken fi]⟩

/-- `SLReflex_SetMarker` (StreamlineReflex.cpp). -/
def SLReflex_SetMarker (sdk : Sdk) (s : GState) (marker : Int) : UnitRes :=
  if !s.initialized then ⟨s, []⟩
  else if marker < 0 ∨ marker ≥ (pclMarkerMaximum : Int) then ⟨s, []⟩
  else
    let fi := frameIndex32 s
    let (r, tok) := sdk.newFrameToken fi
    if r = eOk ∧ tok then
      ⟨s, [SdkCall.slGetNewFrameToken fi, SdkCall.slPCLSetMarker marker.toNat fi]⟩
    else ⟨s, [SdkCall.slGetNewFrameToken fi]⟩

/-- `ReflexLatencyStats` output struct, with exact rational arithmetic in
place of the C `float` arithmetic. -/
structure ReflexLatencyStats where
  simulationMs : ℚ
  renderSubmitMs : ℚ
  presentMs : ℚ
  driverMs : ℚ
  osRenderQueueMs : ℚ
  gpuRenderMs : ℚ
  totalLatencyMs : ℚ
deriving DecidableEq, Repr

/-- One guarded phase accumulation of `SLReflex_GetLatencyStats`:
`(end - start) / 1000` when `end > start`, else no contribution. -/
def phaseMs (startT endT : Nat) : ℚ :=
  if endT > startT then ((endT - startT : Nat) : ℚ) / 1000 else 0

/-- Loop accumulator of `SLReflex_GetLatencyStats`: the six running sums
and `validFrames`. -/
structure StatsAcc where
  sim : ℚ
  rs : ℚ
  pr : ℚ
  dr : ℚ
  osq : ℚ
  gpu : ℚ
  valid : Nat
deriving DecidableEq, Repr

/-- One iteration of the report loop: entries with `frameID == 0` are
skipped, otherwise each phase with `end > start` is accumulated and the
entry counts as a valid frame. -/
def statsStep (acc : StatsAcc) (r : FrameReport) : StatsAcc :=
  if r.frameID = 0 then acc
  else
    { sim := acc.sim + phaseMs r.simStartTime r.simEndTime
      rs := acc.rs + phaseMs r.renderSubmitStartTime r.renderSubmitEndTime
      pr := acc.pr + phaseMs r.presentStartTime r.presentEndTime
      dr := acc.dr + phaseMs r.driverStartTime r.driverEndTime
      osq := acc.osq + phaseMs r.osRenderQueueStartTime r.osRenderQueueEndTime
      gpu := acc.gpu + phaseMs r.gpuRenderStartTime r.gpuRenderEndTime
      valid := acc.valid + 1 }

/-- The full report loop of `SLReflex_GetLatencyStats`. -/
def statsFold (l : List FrameReport) : StatsAcc :=
  l.foldl statsStep ⟨0, 0, 0, 0, 0, 0, 0⟩

/-- `SLReflex_GetLatencyStats` (StreamlineReflex.cpp): `none` models a
`false` return (the caller's struct contents are then unspecified);
`some` models a `true` return with the averaged stats. -/
def SLReflex_GetLatencyStats (sdk : Sdk) (s : GState) (statsNonNull : Bool) :
    Option ReflexLatencyStats × GState × List SdkCall :=
  if !s.initialized || !statsNonNull then (none, s, [])
  else
    let (r, st) := sdk.reflexGetState
    if r ≠ eOk ∨ !st.latencyReportAvailable then (none, s, [SdkCall.slReflexGetState])
    else
      let a := statsFold st.frameReport
      if a.valid > 0 then
        let d : ℚ := a.valid
        let sim := a.sim / d
        let rs := a.rs / d
        let pr := a.pr / d
        let dr := a.dr / d
        let osq := a.osq / d
        let gpu := a.gpu / d
        (some ⟨sim, rs, pr, dr, osq, gpu, sim + rs + pr + dr + osq + gpu⟩,
          s, [SdkCall.slReflexGetState])
      else (none, s, [SdkCall.slReflexGetState])

/-- `SLDLSS_BeginFrame` (StreamlineDLSSCore.cpp). -/
def SLDLSS_BeginFrame (s : GState) : UnitRes :=
  if !s.initialized then ⟨s, []⟩
  else ⟨{ s with frameId := (s.frameId + 1) % 2 ^ 64 }, []⟩

/-- `SLDLSS_GetFrameId` (StreamlineDLSSCore.cpp), a pure read. -/
def SLDLSS_GetFrameId (s : GState) : Nat := s.frameId

/-- `SLDLSS_SetViewport` (StreamlineDLSSCore.cpp): stores the viewport
id unconditionally, with no initialization check and no SDK call. -/
def SLDLSS_SetViewport (s : GState) (viewportId : Nat) : UnitRes :=
  ⟨{ s with dlssViewport := viewportId }, []⟩

/-- `SLDLSS_SetConstants` (StreamlineDLSSCore.cpp).  The float payload
(matrices, jitter, ...) is abstracted to an opaque tag `constants`; the
claims only concern control flow and the cached-valid flag.  Note the
source returns `true` when frame-token acquisition fails, because the
constants-submission branch is guarded by the token check and the final
statement is `return true`. -/
def SLDLSS_SetConstants (sdk : Sdk) (s : GState) (constants : Nat) : BoolRes :=
  if !s.initialized then ⟨false, s, []⟩
  else
    let s1 := { s with dlssConstants := constants, dlssConstantsValid := true }
    -- the frame counter is untouched by the stores above, so the frame
    -- index requested below is that of the entry state
    let fi := frameIndex32 s
    let (r, tok) := sdk.newFrameToken fi
    if r = eOk ∧ tok then
      if sdk.setConstantsResult fi s1.dlssViewport ≠ eOk then
        ⟨false, s1, [SdkCall.slGetNewFrameToken fi,
                     SdkCall.slSetConstants fi s1.dlssViewport]⟩
      else
        ⟨true, s1, [SdkCall.slGetNewFrameToken fi,
                    SdkCall.slSetConstants fi s1.dlssViewport]⟩
    else ⟨true, s1, [SdkCall.slGetNewFrameToken fi]⟩

/-- `SLDLSS_TagResourceD3D12` (StreamlineDLSSCore.cpp). -/
def SLDLSS_TagResourceD3D12 (sdk : Sdk) (s : GState) (resource : Option Nat)
    (bufferType : Nat) : BoolRes :=
  if !s.initialized then ⟨false, s, []⟩
  else if resource = none then ⟨false, s, []⟩
  else
    let fi := frameIndex32 s
    let (r, tok) := sdk.newFrameToken fi
    if r ≠ eOk ∨ !tok then ⟨false, s, [SdkCall.slGetNewFrameToken fi]⟩
    else if sdk.setTagResult fi s.dlssViewport bufferType ≠ eOk then
      ⟨false, s, [SdkCall.slGetNewFrameToken fi,
                  SdkCall.slSetTagForFrame fi s.dlssViewport bufferType]⟩
    else
      ⟨true, s, [SdkCall.slGetNewFrameToken fi,
                 SdkCall.slSetTagForFrame fi s.dlssViewport bufferType]⟩

/-- `SLDLSS_SetOptions` (StreamlineDLSSCore.cpp). -/
def SLDLSS_SetOptions (sdk : Sdk) (s : GState) (mode : Nat) : BoolRes :=
  if !s.initialized then ⟨false, s, []⟩
  else if sdk.dlssSetOptionsResult s.dlssViewport mode = eOk then
    ⟨true, { s with dlssMode := mode }, [SdkCall.slDLSSSetOptions s.dlssViewport mode]⟩
  else ⟨false, s, [SdkCall.slDLSSSetOptions s.dlssViewport mode]⟩

/-- `SLDLSS_GetOptimalSettings` (StreamlineDLSSCore.cpp); `none` models
a `false` return. -/
def SLDLSS_GetOptimalSettings (sdk : Sdk) (s : GState) (mode : Nat) :
    Option DLSSOptimalSettings × GState × List SdkCall :=
  if !s.initialized || !s.dlssSupported then (none, s, [])
  else
    let (r, settings) := sdk.dlssGetOptimalSettings mode
    if r = eOk then (some settings, s, [SdkCall.slDLSSGetOptimalSettings mode])
    else (none, s, [SdkCall.slDLSSGetOptimalSettings mode])

/-- `SLDLSS_Evaluate` (StreamlineDLSSCore.cpp). -/
def SLDLSS_Evaluate (sdk : Sdk) (s : GState) : BoolRes :=
  if !s.initialized || !s.dlssSupported then ⟨false, s, []⟩
  else
    let fi := frameIndex32 s
    let (r, tok) := sdk.newFrameToken fi
    if r ≠ eOk ∨ !tok then ⟨false, s, [SdkCall.slGetNewFrameToken fi]⟩
    else if sdk.evaluateResult kFeatureDLSS fi ≠ eOk then
      ⟨false, s, [SdkCall.slGetNewFrameToken fi,
                  SdkCall.slEvaluateFeature kFeatureDLSS fi]⟩
    else
      ⟨true, s, [SdkCall.slGetNewFrameToken fi,
                 SdkCall.slEvaluateFeature kFeatureDLSS fi]⟩

/-- `SLDLSS_PrepareEvaluate` (StreamlineDLSSCore.cpp): sets the pending
flag and frame index unconditionally, with no initialization check and
no SDK call. -/
def SLDLSS_PrepareEvaluate (s : GState) : UnitRes :=
  ⟨{ s with pendingReady := true, pendingFrameIndex := frameIndex32 s }, []⟩

/-- `OnDLSSRenderEvent` (StreamlineDLSSCore.cpp), the render-thread
callback.  Log-throttling counters are omitted with the logging. -/
def OnDLSSRenderEvent (sdk : Sdk) (host : Host) (s : GState) (eventID : Int) :
    UnitRes :=
  if eventID ≠ kDLSSEventID_Evaluate then ⟨s, []⟩
  else if !s.pendingReady then ⟨s, []⟩
  else if !s.initialized || !s.dlssSupported then ⟨{ s with pendingReady := false }, []⟩
  else if !s.d3d12v7Ptr then ⟨{ s with pendingReady := false }, []⟩
  else if !host.cmdRecordingOk ∨ host.cmdRecordingList = none then
    ⟨{ s with pendingReady := false }, []⟩
  else
    let fi := s.pendingFrameIndex
    let (r, tok) := sdk.newFrameToken fi
    if r ≠ eOk ∨ !tok then
      ⟨{ s with pendingReady := false }, [SdkCall.slGetNewFrameToken fi]⟩
    else
      ⟨{ s with pendingReady := false },
        [SdkCall.slGetNewFrameToken fi, SdkCall.slEvaluateFeature kFeatureDLSS fi]⟩

/-- `InitializeStreamline` (StreamlineInit.cpp). -/
def InitializeStreamline (sdk : Sdk) (s : GState) : BoolRes :=
  if s.initialized then ⟨true, s, []⟩
  else
    let d3dDevice := if s.d3d12Device.isSome then s.d3d12Device else s.d3d11Device
    if d3dDevice = none then
      ⟨false, { s with lastErrorCode := -999,
                       lastErrorMessage := "No D3D device available" }, []⟩
    else if sdk.initResult ≠ eOk then
      ⟨false, { s with lastErrorCode := -(sdk.initResult : Int),
                       lastErrorMessage := "slInit failed" },
        [SdkCall.slInit]⟩
    else if sdk.setDeviceResult ≠ eOk then
      ⟨false, { s with lastErrorCode := -100 - (sdk.setDeviceResult : Int),
                       lastErrorMessage := "slSetD3DDevice failed" },
        [SdkCall.slInit, SdkCall.slSetD3DDevice, SdkCall.slShutdown]⟩
    else
      ⟨true, { s with
          reflexSupported := sdk.featureSupported kFeatureReflex
          pclSupported := sdk.featureSupported kFeaturePCL
          dlssSupported := sdk.featureSupported kFeatureDLSS
          dlssgSupported := sdk.featureSupported kFeatureDLSS_G
          initialized := true
          frameId := 0
          lastErrorCode := 0
          lastErrorMessage := "OK" },
        [SdkCall.slInit, SdkCall.slSetD3DDevice,
         SdkCall.slIsFeatureSupported kFeatureReflex,
         SdkCall.slIsFeatureSupported kFeaturePCL,
         SdkCall.slIsFeatureSupported kFeatureDLSS,
         SdkCall.slIsFeatureSupported kFeatureDLSS_G]⟩

/-- `ShutdownStreamline` (StreamlineInit.cpp): no-op when not
initialized, otherwise calls `slShutdown` and clears the flags and the
three mode enums (and nothing else). -/
def ShutdownStreamline (s : GState) : UnitRes :=
  if !s.initialized then ⟨s, []⟩
  else
    ⟨{ s with initialized := false, reflexSupported := false, pclSupported := false,
              dlssSupported := false, dlssgSupported := false,
              currentMode := 0, dlssMode := 0, dlssgMode := 0 },
      [SdkCall.slShutdown]⟩

/-- `SLReflex_Shutdown` (StreamlineInit.cpp): takes the mutex and calls
`ShutdownStreamline`. -/
def SLReflex_Shutdown (s : GState) : UnitRes := ShutdownStreamline s

/-- A host-interface query made during the device event
(`IUnityInterfaces::Get<...>`). -/
inductive HostQuery where
  | getD3D12v7
  | getD3D12v6
  | getD3D11
deriving DecidableEq, Repr

/-- `OnGraphicsDeviceEvent` (StreamlineInit.cpp).  Also returns the list
of host interface accessors queried, in order. -/
def OnGraphicsDeviceEvent (sdk : Sdk) (host : Host) (s : GState)
    (ev : DeviceEvent) : GState × List SdkCall × List HostQuery :=
  match ev with
  | DeviceEvent.initEvent =>
    let s := { s with rendererType := host.renderer }
    let (s, queries) :=
      if host.renderer = GfxRenderer.d3d12 then
        match host.v7 with
        | some i =>
          ({ s with d3d12Device := i.device, d3d12Queue := i.queue, d3d12v7Ptr := true },
            [HostQuery.getD3D12v7])
        | none =>
          match host.v6 with
          | some i =>
            ({ s with d3d12Device := i.device, d3d12Queue := i.queue },
              [HostQuery.getD3D12v7, HostQuery.getD3D12v6])
          | none => (s, [HostQuery.getD3D12v7, HostQuery.getD3D12v6])
      else if host.renderer = GfxRenderer.d3d11 then
        match host.d3d11 with
        | some dev => ({ s with d3d11Device := dev }, [HostQuery.getD3D11])
        | none => (s, [HostQuery.getD3D11])
      else (s, [])
    if s.d3d12Device.isSome ∨ s.d3d11Device.isSome then
      let r := InitializeStreamline sdk s
      (r.st, r.calls, queries)
    else (s, [], queries)
  | DeviceEvent.shutdownEvent =>
    let r := ShutdownStreamline s
    ({ r.st with d3d12Device := none, d3d12Queue := none, d3d11Device := none,
                 rendererType := GfxRenderer.null },
      r.calls, [])
  | DeviceEvent.beforeReset => (s, [], [])
  | DeviceEvent.afterReset => (s, [], [])

/-- Legacy `SLDLSS_SetMode` (StreamlineDLSSLegacy.cpp): resolves
`slDLSSSetOptions` by name and calls it on viewport 0. -/
def SLDLSS_SetMode (sdk : Sdk) (s : GState) (mode : Nat) : BoolRes :=
  if !s.initialized || !s.dlssSupported then ⟨false, s, []⟩
  else
    let (r, fnPresent) := sdk.getFeatureFunction kFeatureDLSS "slDLSSSetOptions"
    if r ≠ eOk ∨ !fnPresent then
      ⟨false, s, [SdkCall.slGetFeatureFunction kFeatureDLSS "slDLSSSetOptions"]⟩
    else if sdk.dlssSetOptionsResult 0 mode = eOk then
      ⟨true, { s with dlssMode := mode },
        [SdkCall.slGetFeatureFunction kFeatureDLSS "slDLSSSetOptions",
         SdkCall.slDLSSSetOptions 0 mode]⟩
    else
      ⟨false, s,
        [SdkCall.slGetFeatureFunction kFeatureDLSS "slDLSSSetOptions",
         SdkCall.slDLSSSetOptions 0 mode]⟩

/-- Legacy `SLDLSSG_SetMode` (StreamlineDLSSLegacy.cpp): resolves
`slDLSSGSetOptions` by name and calls it on viewport 0; on success
stores the frame-generation mode and frames-to-generate count. -/
def SLDLSSG_SetMode (sdk : Sdk) (s : GState) (mode frames : Nat) : BoolRes :=
  if !s.initialized || !s.dlssgSupported then ⟨false, s, []⟩
  else
    let (r, fnPresent) := sdk.getFeatureFunction kFeatureDLSS_G "slDLSSGSetOptions"
    if r ≠ eOk ∨ !fnPresent then
      ⟨false, s, [SdkCall.slGetFeatureFunction kFeatureDLSS_G "slDLSSGSetOptions"]⟩
    else if sdk.dlssgSetOptionsResult 0 mode frames = eOk then
      ⟨true, { s with dlssgMode := mode, numFramesToGenerate := frames },
        [SdkCall.slGetFeatureFunction kFeatureDLSS_G "slDLSSGSetOptions",
         SdkCall.slDLSSGSetOptions 0 mode frames]⟩
    else
      ⟨false, s,
        [SdkCall.slGetFeatureFunction kFeatureDLSS_G "slDLSSGSetOptions",
         SdkCall.slDLSSGSetOptions 0 mode frames]⟩

/-- `SLStreamline_EnableDLSSQualityWithFrameGen2x`
(StreamlineDLSSLegacy.cpp): DLSS quality (mode 3) then frame-gen
(mode 1, 1 frame); a frame-gen failure is still overall success. -/
def SLStreamline_EnableDLSSQualityWithFrameGen2x (sdk : Sdk) (s : GState) : BoolRes :=
  let r1 := SLDLSS_SetMode sdk s 3
  if !r1.ret then ⟨false, r1.st, r1.calls⟩
  else
    let r2 := SLDLSSG_SetMode sdk r1.st 1 1
    if !r2.ret then ⟨true, r2.st, r1.calls ++ r2.calls⟩
    else ⟨true, r2.st, r1.calls ++ r2.calls⟩

/-- `OnRenderEvent` (StreamlineReflex.cpp), the Reflex marker
dispatcher: event 0 is begin-frame + sleep + simulation-start marker,
events 1-5 are the remaining markers. -/
def OnRenderEvent (sdk : Sdk) (s : GState) (eventID : Int) : UnitRes :=
  if eventID = 0 then
    let r1 := SLReflex_BeginFrame s
    let r2 := SLReflex_Sleep sdk r1.st
    let r3 := SLReflex_SetMarker sdk r2.st 0
    ⟨r3.st, r1.calls ++ r2.calls ++ r3.calls⟩
  else if eventID = 1 then SLReflex_SetMarker sdk s 1
  else if eventID = 2 then SLReflex_SetMarker sdk s 2
  else if eventID = 3 then SLReflex_SetMarker sdk s 3
  else if eventID = 4 then SLReflex_SetMarker sdk s 4
  else if eventID = 5 then SLReflex_SetMarker sdk s 5
  else ⟨s, []⟩

/-- One invocation of a modelled entry point, for whole-run statements
about the session state. -/
inductive Op where
  | reflexSetMode (m : Int)
  | reflexGetState
  | reflexBeginFrame
  | reflexSleep
  | reflexSetMarker (m : Int)
  | reflexGetLatencyStats (nonNull : Bool)
  | reflexShutdown
  | reflexRenderEvent (e : Int)
  | dlssBeginFrame
  | dlssSetViewport (v : Nat)
  | dlssSetConstants (c : Nat)
  | dlssTagResource (res : Option Nat) (bufferType : Nat)
  | dlssSetOptions (m : Nat)
  | dlssGetOptimalSettings (m : Nat)
  | dlssEvaluate
  | dlssPrepareEvaluate
  | dlssRenderEvent (e : Int)
  | dlssSetModeLegacy (m : Nat)
  | dlssgSetModeLegacy (m f : Nat)
  | enableQualityFG2x
  | deviceEvent (ev : DeviceEvent)
deriving DecidableEq, Repr

/-- State transition of one entry-point invocation. -/
def step (sdk : Sdk) (host : Host) (s : GState) : Op → GState
  | Op.reflexSetMode m => (SLReflex_SetMode sdk s m).st
  | Op.reflexGetState => (SLReflex_GetState sdk s).2.1
  | Op.reflexBeginFrame => (SLReflex_BeginFrame s).st
  | Op.reflexSleep => (SLReflex_Sleep sdk s).st
  | Op.reflexSetMarker m => (SLReflex_SetMarker sdk s m).st
  | Op.reflexGetLatencyStats nn => (SLReflex_GetLatencyStats sdk s nn).2.1
  | Op.reflexShutdown => (SLReflex_Shutdown s).st
  | Op.reflexRenderEvent e => (OnRenderEvent sdk s e).st
  | Op.dlssBeginFrame => (SLDLSS_BeginFrame s).st
  | Op.dlssSetViewport v => (SLDLSS_SetViewport s v).st
  | Op.dlssSetConstants c => (SLDLSS_SetConstants sdk s c).st
  | Op.dlssTagResource res bt => (SLDLSS_TagResourceD3D12 sdk s res bt).st
  | Op.dlssSetOptions m => (SLDLSS_SetOptions sdk s m).st
  | Op.dlssGetOptimalSettings m => (SLDLSS_GetOptimalSettings sdk s m).2.1
  | Op.dlssEvaluate => (SLDLSS_Evaluate sdk s).st
  | Op.dlssPrepareEvaluate => (SLDLSS_PrepareEvaluate s).st
  | Op.dlssRenderEvent e => (OnDLSSRenderEvent sdk host s e).st
  | Op.dlssSetModeLegacy m => (SLDLSS_SetMode sdk s m).st
  | Op.dlssgSetModeLegacy m f => (SLDLSSG_SetMode sdk s m f).st
  | Op.enableQualityFG2x => (SLStreamline_EnableDLSSQualityWithFrameGen2x sdk s).st
  | Op.deviceEvent ev => (OnGraphicsDeviceEvent sdk host s ev).1

/-- The operations that execute `g_frameId++`: the two begin-frame
entry points and the Reflex render event 0 (which calls
`SLReflex_BeginFrame`). -/
def Op.isBeginFrame : Op → Bool
  | Op.reflexBeginFrame => true
  | Op.dlssBeginFrame => true
  | Op.reflexRenderEvent e => e = 0
  | _ => false

/-- The operations that can run `InitializeStreamline` (which resets the
frame counter). -/
def Op.isInit : Op → Bool
  | Op.deviceEvent DeviceEvent.initEvent => true
  | _ => false

/-- Run a list of entry-point invocations from a state. -/
def runOps (sdk : Sdk) (host : Host) (s : GState) : List Op → GState
  | [] => s
  | op :: l => runOps sdk host (step sdk host s op) l

/-- Number of begin-frame operations in a run. -/
def countBeginOps (l : List Op) : Nat := (l.filter Op.isBeginFrame).length

/-- SDK oracle where every call succeeds (and the report ring is
empty). -/
def sdkOk : Sdk where
  initResult := eOk
  setDeviceResult := eOk
  featureSupported := fun _ => true
  newFrameToken := fun _ => (eOk, true)
  pclSetMarkerResult := fun _ _ => eOk
  reflexSleepResult := fun _ => eOk
  reflexSetOptionsResult := fun _ => eOk
  reflexGetState := (eOk, ⟨true, false, true, []⟩)
  setConstantsResult := fun _ _ => eOk
  setTagResult := fun _ _ _ => eOk
  dlssSetOptionsResult := fun _ _ => eOk
  dlssGetOptimalSettings := fun _ => (eOk, ⟨0, 0, 0, 0, 0, 0⟩)
  evaluateResult := fun _ _ => eOk
  dlssgSetOptionsResult := fun _ _ _ => eOk
  getFeatureFunction := fun _ _ => (eOk, true)

/-- SDK oracle where frame-token acquisition fails (result code 1, null
token) and everything else succeeds. -/
def sdkTokenFail : Sdk := { sdkOk with newFrameToken := fun _ => (1, false) }

/-- SDK oracle where the frame-generation option setter fails (result
code 7) and everything else succeeds. -/
def sdkFrameGenFail : Sdk := { sdkOk with dlssgSetOptionsResult := fun _ _ _ => 7 }

/-- SDK oracle where constants submission fails (result code 5) and
everything else succeeds. -/
def sdkConstFail : Sdk := { sdkOk with setConstantsResult := fun _ _ => 5 }

/-- Host oracle: D3D12 renderer, v7 interface present, recording
state available. -/
def hostD3D12 : Host where
  renderer := GfxRenderer.d3d12
  v7 := some ⟨some 11, some 12⟩
  v6 := some ⟨some 21, some 22⟩
  d3d11 := some (some 31)
  cmdRecordingOk := true
  cmdRecordingList := some 41

/-- A fully initialized session state with every feature supported. -/
def readyState : GState :=
  { initialState with
      initialized := true, reflexSupported := true, pclSupported := true,
      dlssSupported := true, dlssgSupported := true,
      d3d12Device := some 11, d3d12Queue := some 12, d3d12v7Ptr := true,
      rendererType := GfxRenderer.d3d12, lastErrorMessage := "OK" }

section HelperLemmas

variable (sdk : Sdk) (host : Host) (s : GState)

lemma shutdown_not_initialized : (ShutdownStreamline s).st.initialized = false := by
  unfold ShutdownStreamline; split <;> simp_all

lemma shutdown_preserves_handles :
    (ShutdownStreamline s).st.d3d12Device = s.d3d12Device ∧
    (ShutdownStreamline s).st.d3d12Queue = s.d3d12Queue ∧
    (ShutdownStreamline s).st.d3d11Device = s.d3d11Device ∧
    (ShutdownStreamline s).st.frameId = s.frameId := by
  unfold ShutdownStreamline; split <;> simp_all

@[simp] lemma init_st_d3d12Device :
    (InitializeStreamline sdk s).st.d3d12Device = s.d3d12Device := by
  simp only [InitializeStreamline]; split_ifs <;> rfl

@[simp] lemma init_st_d3d12Queue :
    (InitializeStreamline sdk s).st.d3d12Queue = s.d3d12Queue := by
  simp only [InitializeStreamline]; split_ifs <;> rfl

@[simp] lemma init_st_d3d11Device :
    (InitializeStreamline sdk s).st.d3d11Device = s.d3d11Device := by
  simp only [InitializeStreamline]; split_ifs <;> rfl

@[simp] lemma init_st_d3d12v7Ptr :
    (InitializeStreamline sdk s).st.d3d12v7Ptr = s.d3d12v7Ptr := by
  simp only [InitializeStreamline]; split_ifs <;> rfl

@[simp] lemma init_st_rendererType :
    (InitializeStreamline sdk s).st.rendererType = s.rendererType := by
  simp only [InitializeStreamline]; split_ifs <;> rfl

end HelperLemmas

/-- C6: calling `InitializeStreamline` while already initialized returns
success with no SDK call and no state change; calling
`ShutdownStreamline` while not initialized is a no-op with no SDK call;
and across two consecutive shutdown calls the second makes no SDK call,
so `slShutdown` is invoked at most once. -/
theorem C6_init_shutdown_idempotent :
    (∀ (sdk : Sdk) (s : GState), s.initialized = true →
      InitializeStreamline sdk s = ⟨true, s, []⟩) ∧
    (∀ s : GState, s.initialized = false → ShutdownStreamline s = ⟨s, []⟩) ∧
    (∀ s : GState,
      (ShutdownStreamline (ShutdownStreamline s).st).calls = [] ∧
      ((ShutdownStreamline s).calls ++
          (ShutdownStreamline (ShutdownStreamline s).st).calls).count
        SdkCall.slShutdown ≤ 1) := by
  refine ⟨fun sdk s h => by simp [InitializeStreamline, h],
          fun s h => by simp [ShutdownStreamline, h], fun s => ?_⟩
  have h2 : (ShutdownStreamline (ShutdownStreamline s).st).calls = [] := by
    have := shutdown_not_initialized s
    unfold ShutdownStreamline
    simp_all [ShutdownStreamline]
  refine ⟨h2, ?_⟩
  rw [h2]
  cases hc : s.initialized <;> simp [ShutdownStreamline, hc]

/-- C6 witness: concrete instances of the idempotency theorem. -/
theorem C6_witness :
    InitializeStreamline sdkOk readyState = ⟨true, readyState, []⟩ ∧
    ShutdownStreamline initialState = ⟨initialState, []⟩ :=
  ⟨C6_init_shutdown_idempotent.1 sdkOk readyState rfl,
   C6_init_shutdown_idempotent.2.1 initialState rfl⟩

/-- C7 counterexample: the explicit shutdown API call
(`SLReflex_Shutdown` → `ShutdownStreamline`) does not clear the stored
device and queue handles, contrary to the claim that every transition to
the shut-down state clears all handles: from an initialized state
holding a D3D12 device, the handles survive the explicit shutdown. -/
theorem C7_counterexample :
    readyState.initialized = true ∧
    readyState.d3d12Device = some 11 ∧
    (SLReflex_Shutdown readyState).st.initialized = false ∧
    (SLReflex_Shutdown readyState).st.d3d12Device ≠ none ∧
    (SLReflex_Shutdown readyState).st.d3d12Queue ≠ none := by
  refine ⟨rfl, rfl, rfl, ?_, ?_⟩ <;> decide

/-- C7 amended: every transition from the initialized state to the
shut-down state — host device-shutdown event or explicit API call —
invokes SDK shutdown exactly once and clears the initialized flag, the
four feature-supported flags and the three mode enums; the device-
shutdown event additionally clears the stored device/queue handles and
the renderer type, while the explicit API call leaves the device/queue
handles stored (the session stays re-bindable either way). -/
theorem C7_amended_shutdown_transitions :
    (∀ s : GState, s.initialized = true →
      (SLReflex_Shutdown s).calls = [SdkCall.slShutdown] ∧
      (SLReflex_Shutdown s).st =
        { s with initialized := false, reflexSupported := false,
                 pclSupported := false, dlssSupported := false,
                 dlssgSupported := false,
                 currentMode := 0, dlssMode := 0, dlssgMode := 0 }) ∧
    (∀ (sdk : Sdk) (host : Host) (s : GState), s.initialized = true →
      (OnGraphicsDeviceEvent sdk host s DeviceEvent.shutdownEvent).2.1 =
        [SdkCall.slShutdown] ∧
      (OnGraphicsDeviceEvent sdk host s DeviceEvent.shutdownEvent).1 =
        { s with initialized := false, reflexSupported := false,
                 pclSupported := false, dlssSupported := false,
                 dlssgSupported := false,
                 currentMode := 0, dlssMode := 0, dlssgMode := 0,
                 d3d12Device := none, d3d12Queue := none, d3d11Device := none,
                 rendererType := GfxRenderer.null }) := by
  constructor
  · intro s h
    simp [SLReflex_Shutdown, ShutdownStreamline, h]
  · intro sdk host s h
    simp [OnGraphicsDeviceEvent, ShutdownStreamline, h]

/-- C7 witness: the amended theorem at a concrete initialized state. -/
theorem C7_witness :
    (SLReflex_Shutdown readyState).calls = [SdkCall.slShutdown] ∧
    (OnGraphicsDeviceEvent sdkOk hostD3D12 readyState
        DeviceEvent.shutdownEvent).2.1 = [SdkCall.slShutdown] :=
  ⟨(C7_amended_shutdown_transitions.1 readyState rfl).1,
   (C7_amended_shutdown_transitions.2 sdkOk hostD3D12 readyState rfl).1⟩

/-- C8: on the device-initialize event, a D3D11 renderer queries only
the D3D11 accessor (the D3D12 chain is never attempted); a D3D12
renderer queries the v7 interface first and falls back to v6 exactly
once only when v7 is absent, and the device and command-queue handles
are stored from whichever accessor succeeded. -/
theorem C8_device_event_accessor_selection :
    ∀ (sdk : Sdk) (host : Host) (s : GState),
      (host.renderer = GfxRenderer.d3d11 →
        (OnGraphicsDeviceEvent sdk host s DeviceEvent.initEvent).2.2 =
          [HostQuery.getD3D11]) ∧
      (host.renderer = GfxRenderer.d3d12 →
        (∀ i, host.v7 = some i →
          (OnGraphicsDeviceEvent sdk host s DeviceEvent.initEvent).2.2 =
            [HostQuery.getD3D12v7] ∧
          (OnGraphicsDeviceEvent sdk host s DeviceEvent.initEvent).1.d3d12Device =
            i.device ∧
          (OnGraphicsDeviceEvent sdk host s DeviceEvent.initEvent).1.d3d12Queue =
            i.queue) ∧
        (host.v7 = none →
          (OnGraphicsDeviceEvent sdk host s DeviceEvent.initEvent).2.2 =
            [HostQuery.getD3D12v7, HostQuery.getD3D12v6] ∧
          ∀ i, host.v6 = some i →
            (OnGraphicsDeviceEvent sdk host s DeviceEvent.initEvent).1.d3d12Device =
              i.device ∧
            (OnGraphicsDeviceEvent sdk host s DeviceEvent.initEvent).1.d3d12Queue =
              i.queue)) := by
  intro sdk host s
  constructor
  · intro hr
    simp only [OnGraphicsDeviceEvent, hr]
    cases host.d3d11 <;> simp <;> split_ifs <;> rfl
  · intro hr
    constructor
    · intro i hv
      refine ⟨?_, ?_, ?_⟩ <;>
        · simp [OnGraphicsDeviceEvent, hr, hv]
          split_ifs <;> simp
    · intro hv
      constructor
      · simp [OnGraphicsDeviceEvent, hr, hv]
        cases hv6 : host.v6 <;> simp [hv6] <;> split_ifs <;> rfl
      · intro i hv6
        refine ⟨?_, ?_⟩ <;>
          · simp [OnGraphicsDeviceEvent, hr, hv, hv6]
            split_ifs <;> simp

/-- C8 witness: the accessor-selection theorem at concrete hosts. -/
theorem C8_witness :
    (OnGraphicsDeviceEvent sdkOk hostD3D12 initialState DeviceEvent.initEvent).2.2 =
      [HostQuery.getD3D12v7] ∧
    (OnGraphicsDeviceEvent sdkOk hostD3D12 initialState
        DeviceEvent.initEvent).1.d3d12Device = some 11 :=
  ⟨((C8_device_event_accessor_selection sdkOk hostD3D12 initialState).2 rfl).1
      ⟨some 11, some 12⟩ rfl |>.1,
   ((C8_device_event_accessor_selection sdkOk hostD3D12 initialState).2 rfl).1
      ⟨some 11, some 12⟩ rfl |>.2.1⟩

/-- C9: a marker outside the range [0, eMaximum) makes
`SLReflex_SetMarker` return with no state change, no frame-token
request and no SDK call at all, even when initialized; a marker inside
the range, with the bridge initialized and token acquisition
succeeding, is forwarded to the SDK with a freshly requested frame
token. -/
theorem C9_marker_range_check :
    ∀ (sdk : Sdk) (s : GState) (m : Int),
      ((m < 0 ∨ (pclMarkerMaximum : Int) ≤ m) →
        SLReflex_SetMarker sdk s m = ⟨s, []⟩) ∧
      (s.initialized = true → 0 ≤ m → m < (pclMarkerMaximum : Int) →
        sdk.newFrameToken (frameIndex32 s) = (eOk, true) →
        SLReflex_SetMarker sdk s m =
          ⟨s, [SdkCall.slGetNewFrameToken (frameIndex32 s),
               SdkCall.slPCLSetMarker m.toNat (frameIndex32 s)]⟩) := by
  intro sdk s m
  constructor
  · intro hm
    unfold SLReflex_SetMarker
    split_ifs <;> rfl
  · intro hi h0 hmax htok
    have hr : ¬(m < 0 ∨ m ≥ (pclMarkerMaximum : Int)) := by
      push_neg
      exact ⟨h0, hmax⟩
    simp [SLReflex_SetMarker, hi, hr, htok, eOk]

/-- C9 witness: marker 17 (= eMaximum) is rejected with no SDK call;
marker 0 is forwarded with a fresh frame token. -/
theorem C9_witness :
    SLReflex_SetMarker sdkOk readyState 17 = ⟨readyState, []⟩ ∧
    SLReflex_SetMarker sdkOk readyState 0 =
      ⟨readyState, [SdkCall.slGetNewFrameToken 0, SdkCall.slPCLSetMarker 0 0]⟩ :=
  ⟨(C9_marker_range_check sdkOk readyState 17).1 (Or.inr (by norm_num [pclMarkerMaximum])),
   (C9_marker_range_check sdkOk readyState 0).2 rfl le_rfl
      (by norm_num [pclMarkerMaximum]) rfl⟩

/-- C1 counterexample: while uninitialized, `SLDLSS_SetViewport` and
`SLDLSS_PrepareEvaluate` do change the session state (the stored
viewport id, and the pending-evaluation flag), so the claim that every
feature function called before initialization leaves the session state
unchanged is false — though neither makes an SDK call. -/
theorem C1_counterexample :
    initialState.initialized = false ∧
    (SLDLSS_SetViewport initialState 5).calls = [] ∧
    (SLDLSS_SetViewport initialState 5).st ≠ initialState ∧
    (SLDLSS_PrepareEvaluate initialState).calls = [] ∧
    (SLDLSS_PrepareEvaluate initialState).st ≠ initialState := by
  refine ⟨rfl, rfl, ?_, rfl, ?_⟩ <;> decide

/-- C1 amended: while the initialized flag is false, every modelled
feature function that checks initialization returns failure (false /
`none` for functions with results, a true no-op for void ones), leaves
the state unchanged and makes no SDK call — in particular
`SLReflex_SetMarker`; `SLDLSS_SetViewport` and `SLDLSS_PrepareEvaluate`
also make no SDK call, but update their local fields (viewport id;
pending flag and frame index) unconditionally. -/
theorem C1_amended_uninitialized_behavior :
    ∀ (sdk : Sdk) (s : GState), s.initialized = false →
      (∀ m, SLReflex_SetMode sdk s m = ⟨false, s, []⟩) ∧
      (SLReflex_GetState sdk s = ((false, none), s, [])) ∧
      (SLReflex_BeginFrame s = ⟨s, []⟩) ∧
      (SLReflex_Sleep sdk s = ⟨s, []⟩) ∧
      (∀ m, SLReflex_SetMarker sdk s m = ⟨s, []⟩) ∧
      (∀ nn, SLReflex_GetLatencyStats sdk s nn = (none, s, [])) ∧
      (SLDLSS_BeginFrame s = ⟨s, []⟩) ∧
      (∀ c, SLDLSS_SetConstants sdk s c = ⟨false, s, []⟩) ∧
      (∀ r bt, SLDLSS_TagResourceD3D12 sdk s r bt = ⟨false, s, []⟩) ∧
      (∀ m, SLDLSS_SetOptions sdk s m = ⟨false, s, []⟩) ∧
      (∀ m, SLDLSS_GetOptimalSettings sdk s m = (none, s, [])) ∧
      (SLDLSS_Evaluate sdk s = ⟨false, s, []⟩) ∧
      (∀ m, SLDLSS_SetMode sdk s m = ⟨false, s, []⟩) ∧
      (∀ m f, SLDLSSG_SetMode sdk s m f = ⟨false, s, []⟩) ∧
      (∀ v, SLDLSS_SetViewport s v = ⟨{ s with dlssViewport := v }, []⟩) ∧
      (SLDLSS_PrepareEvaluate s =
        ⟨{ s with pendingReady := true, pendingFrameIndex := frameIndex32 s }, []⟩) := by
  intro sdk s h
  refine ⟨fun m => ?_, ?_, ?_, ?_, fun m => ?_, fun nn => ?_, ?_, fun c => ?_,
          fun r bt => ?_, fun m => ?_, fun m => ?_, ?_, fun m => ?_,
          fun m f => ?_, fun v => ?_, ?_⟩ <;>
    simp [SLReflex_SetMode, SLReflex_GetState, SLReflex_BeginFrame, SLReflex_Sleep,
          SLReflex_SetMarker, SLReflex_GetLatencyStats, SLDLSS_BeginFrame,
          SLDLSS_SetConstants, SLDLSS_TagResourceD3D12, SLDLSS_SetOptions,
          SLDLSS_GetOptimalSettings, SLDLSS_Evaluate, SLDLSS_SetMode,
          SLDLSSG_SetMode, SLDLSS_SetViewport, SLDLSS_PrepareEvaluate, h]

/-- C1 witness: the amended theorem at the load-time state. -/
theorem C1_witness :
    SLReflex_SetMarker sdkOk initialState 3 = ⟨initialState, []⟩ :=
  (C1_amended_uninitialized_behavior sdkOk initialState rfl).2.2.2.2.1 3

/-- C2: the DLSS render-event callback with a non-matching event id
returns with no state change and no SDK call (so its behaviour cannot
depend on the pending flag); with the matching id and the pending flag
clear it also returns unchanged with no SDK call (no evaluation); and
whenever the pending flag is set on entry with the matching id, the
resulting state is exactly the input state with the pending flag
cleared — on the success path and on every failure path alike. -/
theorem C2_render_event_pending_handshake :
    ∀ (sdk : Sdk) (host : Host) (s : GState) (e : Int),
      (e ≠ kDLSSEventID_Evaluate → OnDLSSRenderEvent sdk host s e = ⟨s, []⟩) ∧
      (e = kDLSSEventID_Evaluate → s.pendingReady = false →
        OnDLSSRenderEvent sdk host s e = ⟨s, []⟩) ∧
      (e = kDLSSEventID_Evaluate → s.pendingReady = true →
        (OnDLSSRenderEvent sdk host s e).st = { s with pendingReady := false }) := by
  intro sdk host s e
  refine ⟨fun hne => ?_, fun he hp => ?_, fun he hp => ?_⟩
  · simp [OnDLSSRenderEvent, hne]
  · simp [OnDLSSRenderEvent, he, hp]
  · unfold OnDLSSRenderEvent
    simp only [he, hp]
    split_ifs <;> simp_all

/-- C2 witness: the handshake theorem at concrete inputs, including a
pending state whose flag is cleared. -/
theorem C2_witness :
    OnDLSSRenderEvent sdkOk hostD3D12 readyState 7 = ⟨readyState, []⟩ ∧
    (OnDLSSRenderEvent sdkOk hostD3D12 { readyState with pendingReady := true }
        kDLSSEventID_Evaluate).st =
      { readyState with pendingReady := false } :=
  ⟨(C2_render_event_pending_handshake sdkOk hostD3D12 readyState 7).1 (by decide),
   (C2_render_event_pending_handshake sdkOk hostD3D12
      { readyState with pendingReady := true } kDLSSEventID_Evaluate).2.2 rfl rfl⟩

lemma dlss_setMode_st_eq (sdk : Sdk) (s : GState) (m : Nat) :
    (SLDLSS_SetMode sdk s m).st =
      if (SLDLSS_SetMode sdk s m).ret then { s with dlssMode := m } else s := by
  unfold SLDLSS_SetMode
  repeat' split <;> simp_all

lemma dlssg_setMode_st_eq (sdk : Sdk) (s : GState) (m f : Nat) :
    (SLDLSSG_SetMode sdk s m f).st =
      if (SLDLSSG_SetMode sdk s m f).ret then
        { s with dlssgMode := m, numFramesToGenerate := f }
      else s := by
  unfold SLDLSSG_SetMode
  repeat' split <;> simp_all

lemma dlss_setMode_true_st (sdk : Sdk) (s : GState) (m : Nat)
    (h : (SLDLSS_SetMode sdk s m).ret = true) :
    (SLDLSS_SetMode sdk s m).st = { s with dlssMode := m } := by
  rw [dlss_setMode_st_eq, h]
  simp

lemma dlssg_setMode_false_st (sdk : Sdk) (s : GState) (m f : Nat)
    (h : (SLDLSSG_SetMode sdk s m f).ret = false) :
    (SLDLSSG_SetMode sdk s m f).st = s := by
  rw [dlssg_setMode_st_eq, h]
  simp

/-- C4: when the combined quality + frame-gen-2x preset runs with the
upscaling sub-call succeeding and the frame-generation sub-call
failing, it still returns overall success, the stored upscaling mode
becomes quality (3), and the stored frame-generation mode and
frames-to-generate count keep their prior values. -/
theorem C4_partial_preset_policy :
    ∀ (sdk : Sdk) (s : GState),
      (SLDLSS_SetMode sdk s 3).ret = true →
      (SLDLSSG_SetMode sdk (SLDLSS_SetMode sdk s 3).st 1 1).ret = false →
      (SLStreamline_EnableDLSSQualityWithFrameGen2x sdk s).ret = true ∧
      (SLStreamline_EnableDLSSQualityWithFrameGen2x sdk s).st.dlssMode = 3 ∧
      (SLStreamline_EnableDLSSQualityWithFrameGen2x sdk s).st.dlssgMode =
        s.dlssgMode ∧
      (SLStreamline_EnableDLSSQualityWithFrameGen2x sdk s).st.numFramesToGenerate =
        s.numFramesToGenerate := by
  intro sdk s h1 h2
  have hst1 := dlss_setMode_true_st sdk s 3 h1
  have hst2 := dlssg_setMode_false_st sdk (SLDLSS_SetMode sdk s 3).st 1 1 h2
  unfold SLStreamline_EnableDLSSQualityWithFrameGen2x
  simp only [h1, h2, Bool.not_true, Bool.not_false, Bool.false_eq_true, if_false,
    if_true, ite_true, ite_false]
  rw [hst2, hst1]
  simp

/-- C4 witness: with an SDK oracle whose frame-generation setter fails,
the preset still reports success from the initialized state, the
upscaling mode is 3 and the frame-generation mode stays at its prior
value (0, with 1 frame to generate). -/
theorem C4_witness :
    (SLStreamline_EnableDLSSQualityWithFrameGen2x sdkFrameGenFail readyState).ret =
      true ∧
    (SLStreamline_EnableDLSSQualityWithFrameGen2x sdkFrameGenFail
        readyState).st.dlssMode = 3 ∧
    (SLStreamline_EnableDLSSQualityWithFrameGen2x sdkFrameGenFail
        readyState).st.dlssgMode = readyState.dlssgMode ∧
    (SLStreamline_EnableDLSSQualityWithFrameGen2x sdkFrameGenFail
        readyState).st.numFramesToGenerate = readyState.numFramesToGenerate :=
  C4_partial_preset_policy sdkFrameGenFail readyState (by decide) (by decide)

/-- C5 counterexample: `SLDLSS_SetConstants`, called initialized with an
SDK oracle whose frame-token acquisition fails (non-success result code
1, null token), makes that failing SDK call yet returns `true`, so the
claim that every boolean feature function returns false whenever an SDK
call made during the invocation fails is false on the code. -/
theorem C5_counterexample :
    readyState.initialized = true ∧
    sdkTokenFail.newFrameToken (frameIndex32 readyState) = (1, false) ∧
    (1 : SlResult) ≠ eOk ∧
    (SLDLSS_SetConstants sdkTokenFail readyState 0).calls =
      [SdkCall.slGetNewFrameToken 0] ∧
    (SLDLSS_SetConstants sdkTokenFail readyState 0).ret = true := by
  exact ⟨rfl, rfl, by decide, by decide, by decide⟩

/-- C5 amended: in the initialized state, `SLDLSS_SetConstants` returns
false when its constants-submission SDK call fails, but returns true
(with the constants still cached locally) when its frame-token
acquisition fails; `SLDLSS_Evaluate` returns false when either its
frame-token acquisition or its evaluation SDK call fails. -/
theorem C5_amended_sdk_failure_returns :
    ∀ (sdk : Sdk) (s : GState) (c : Nat), s.initialized = true →
      (sdk.newFrameToken (frameIndex32 s) = (eOk, true) →
        sdk.setConstantsResult (frameIndex32 s) s.dlssViewport ≠ eOk →
        (SLDLSS_SetConstants sdk s c).ret = false) ∧
      ((sdk.newFrameToken (frameIndex32 s)).1 ≠ eOk ∨
          (sdk.newFrameToken (frameIndex32 s)).2 = false →
        (SLDLSS_SetConstants sdk s c).ret = true ∧
        (SLDLSS_SetConstants sdk s c).st.dlssConstantsValid = true) ∧
      (s.dlssSupported = true →
        ((sdk.newFrameToken (frameIndex32 s)).1 ≠ eOk ∨
            (sdk.newFrameToken (frameIndex32 s)).2 = false →
          (SLDLSS_Evaluate sdk s).ret = false) ∧
        (sdk.newFrameToken (frameIndex32 s) = (eOk, true) →
          sdk.evaluateResult kFeatureDLSS (frameIndex32 s) ≠ eOk →
          (SLDLSS_Evaluate sdk s).ret = false)) := by
  intro sdk s c hi
  refine ⟨fun htok hfail => ?_, fun htok => ?_, fun hsup => ⟨fun htok => ?_, fun htok hfail => ?_⟩⟩
  · simp [SLDLSS_SetConstants, hi, htok, hfail]
  · rcases htok with h | h <;>
      · unfold SLDLSS_SetConstants
        simp only [hi]
        split_ifs <;> simp_all [frameIndex32]
  · rcases htok with h | h <;>
      · unfold SLDLSS_Evaluate
        simp only [hi, hsup]
        split_ifs <;> simp_all [frameIndex32]
  · simp [SLDLSS_Evaluate, hi, hsup, htok, hfail]

/-- C5 witness: the amended theorem at concrete oracles (failing
constants submission; failing token acquisition). -/
theorem C5_witness :
    (SLDLSS_SetConstants sdkConstFail readyState 0).ret = false ∧
    (SLDLSS_SetConstants sdkTokenFail readyState 0).ret = true ∧
    (SLDLSS_Evaluate sdkTokenFail readyState).ret = false :=
  ⟨(C5_amended_sdk_failure_returns sdkConstFail readyState 0 rfl).1 rfl (by decide),
   ((C5_amended_sdk_failure_returns sdkTokenFail readyState 0 rfl).2.1
      (Or.inl (by decide))).1,
   ((C5_amended_sdk_failure_returns sdkTokenFail readyState 0 rfl).2.2 rfl).1
      (Or.inl (by decide))⟩

/-- Number of ring entries with a non-zero frame identifier (the `N` of
the latency-stats aggregation; zero-id entries are the `M` empty
slots). -/
def validCount (l : List FrameReport) : Nat :=
  (l.filter (fun r => r.frameID ≠ 0)).length

/-- Sum of a per-entry quantity over the non-zero-id ring entries. -/
def phaseSum (f : FrameReport → ℚ) (l : List FrameReport) : ℚ :=
  ((l.filter (fun r => r.frameID ≠ 0)).map f).sum

/-- Sum of `(end - start) / 1000` over the non-zero-id ring entries,
without the per-phase validity guard. -/
def rawSum (startF endF : FrameReport → Nat) (l : List FrameReport) : ℚ :=
  ((l.filter (fun r => r.frameID ≠ 0)).map
    (fun r => ((endF r - startF r : Nat) : ℚ) / 1000)).sum

lemma statsFold_go (l : List FrameReport) (a : StatsAcc) :
    l.foldl statsStep a =
      ⟨a.sim + phaseSum (fun r => phaseMs r.simStartTime r.simEndTime) l,
       a.rs + phaseSum (fun r => phaseMs r.renderSubmitStartTime r.renderSubmitEndTime) l,
       a.pr + phaseSum (fun r => phaseMs r.presentStartTime r.presentEndTime) l,
       a.dr + phaseSum (fun r => phaseMs r.driverStartTime r.driverEndTime) l,
       a.osq + phaseSum (fun r => phaseMs r.osRenderQueueStartTime r.osRenderQueueEndTime) l,
       a.gpu + phaseSum (fun r => phaseMs r.gpuRenderStartTime r.gpuRenderEndTime) l,
       a.valid + validCount l⟩ := by
  induction l generalizing a with
  | nil => simp [phaseSum, validCount]
  | cons r t ih =>
    by_cases h : r.frameID = 0
    · simp [List.foldl_cons, statsStep, h, ih, phaseSum, validCount]
    · simp only [List.foldl_cons, statsStep, h, ih, phaseSum, validCount,
        List.filter_cons, if_pos, List.map_cons, List.sum_cons, List.length_cons,
        decide_not]
      simp [h]
      refine ⟨by ring, by ring, by ring, by ring, by ring, by ring, by omega⟩

lemma statsFold_eq (l : List FrameReport) :
    statsFold l =
      ⟨phaseSum (fun r => phaseMs r.simStartTime r.simEndTime) l,
       phaseSum (fun r => phaseMs r.renderSubmitStartTime r.renderSubmitEndTime) l,
       phaseSum (fun r => phaseMs r.presentStartTime r.presentEndTime) l,
       phaseSum (fun r => phaseMs r.driverStartTime r.driverEndTime) l,
       phaseSum (fun r => phaseMs r.osRenderQueueStartTime r.osRenderQueueEndTime) l,
       phaseSum (fun r => phaseMs r.gpuRenderStartTime r.gpuRenderEndTime) l,
       validCount l⟩ := by
  simpa using statsFold_go l ⟨0, 0, 0, 0, 0, 0, 0⟩

lemma phaseSum_eq_rawSum (startF endF : FrameReport → Nat) (l : List FrameReport)
    (h : ∀ r ∈ l, r.frameID ≠ 0 → startF r < endF r) :
    phaseSum (fun r => phaseMs (startF r) (endF r)) l = rawSum startF endF l := by
  unfold phaseSum rawSum
  refine congrArg List.sum (List.map_congr_left ?_)
  intro r hr
  have hmem := List.mem_filter.mp hr
  have hlt := h r hmem.1 (by simpa using hmem.2)
  simp [phaseMs, hlt]

/-- C3: with the bridge initialized, a non-null output pointer, the SDK
returning a full report ring with data available, and every non-zero-id
entry having valid start&lt;end phase pairs, `SLReflex_GetLatencyStats`
averages each of the six phase durations over exactly the `N` non-zero
entries (each field is the phase sum over those entries divided by
`N`), ignoring zero-id entries; if `N = 0`, or the SDK reports no data
available, it returns failure. -/
theorem C3_latency_stats_aggregation :
    ∀ (sdk : Sdk) (s : GState) (st : ReflexState),
      s.initialized = true →
      sdk.reflexGetState = (eOk, st) →
      st.frameReport.length = kReflexFrameReportCount →
      (∀ r ∈ st.frameReport, r.frameID ≠ 0 →
        r.simStartTime < r.simEndTime ∧
        r.renderSubmitStartTime < r.renderSubmitEndTime ∧
        r.presentStartTime < r.presentEndTime ∧
        r.driverStartTime < r.driverEndTime ∧
        r.osRenderQueueStartTime < r.osRenderQueueEndTime ∧
        r.gpuRenderStartTime < r.gpuRenderEndTime) →
      (st.latencyReportAvailable = true → 0 < validCount st.frameReport →
        SLReflex_GetLatencyStats sdk s true =
          (some
            { simulationMs :=
                rawSum (fun r => r.simStartTime) (fun r => r.simEndTime)
                  st.frameReport / (validCount st.frameReport : ℚ)
              renderSubmitMs :=
                rawSum (fun r => r.renderSubmitStartTime) (fun r => r.renderSubmitEndTime)
                  st.frameReport / (validCount st.frameReport : ℚ)
              presentMs :=
                rawSum (fun r => r.presentStartTime) (fun r => r.presentEndTime)
                  st.frameReport / (validCount st.frameReport : ℚ)
              driverMs :=
                rawSum (fun r => r.driverStartTime) (fun r => r.driverEndTime)
                  st.frameReport / (validCount st.frameReport : ℚ)
              osRenderQueueMs :=
                rawSum (fun r => r.osRenderQueueStartTime) (fun r => r.osRenderQueueEndTime)
                  st.frameReport / (validCount st.frameReport : ℚ)
              gpuRenderMs :=
                rawSum (fun r => r.gpuRenderStartTime) (fun r => r.gpuRenderEndTime)
                  st.frameReport / (validCount st.frameReport : ℚ)
              totalLatencyMs :=
                rawSum (fun r => r.simStartTime) (fun r => r.simEndTime)
                  st.frameReport / (validCount st.frameReport : ℚ) +
                rawSum (fun r => r.renderSubmitStartTime) (fun r => r.renderSubmitEndTime)
                  st.frameReport / (validCount st.frameReport : ℚ) +
                rawSum (fun r => r.presentStartTime) (fun r => r.presentEndTime)
                  st.frameReport / (validCount st.frameReport : ℚ) +
                rawSum (fun r => r.driverStartTime) (fun r => r.driverEndTime)
                  st.frameReport / (validCount st.frameReport : ℚ) +
                rawSum (fun r => r.osRenderQueueStartTime) (fun r => r.osRenderQueueEndTime)
                  st.frameReport / (validCount st.frameReport : ℚ) +
                rawSum (fun r => r.gpuRenderStartTime) (fun r => r.gpuRenderEndTime)
                  st.frameReport / (validCount st.frameReport : ℚ) },
            s, [SdkCall.slReflexGetState])) ∧
      (st.latencyReportAvailable = true → validCount st.frameReport = 0 →
        SLReflex_GetLatencyStats sdk s true = (none, s, [SdkCall.slReflexGetState])) ∧
      (st.latencyReportAvailable = false →
        SLReflex_GetLatencyStats sdk s true = (none, s, [SdkCall.slReflexGetState])) := by
  intro sdk s st hi hsdk hlen hpairs
  refine ⟨fun hla hpos => ?_, fun hla hzero => ?_, fun hla => ?_⟩
  · have h1 := phaseSum_eq_rawSum (fun r => r.simStartTime) (fun r => r.simEndTime)
      st.frameReport (fun r hr hid => (hpairs r hr hid).1)
    have h2 := phaseSum_eq_rawSum (fun r => r.renderSubmitStartTime)
      (fun r => r.renderSubmitEndTime) st.frameReport
      (fun r hr hid => (hpairs r hr hid).2.1)
    have h3 := phaseSum_eq_rawSum (fun r => r.presentStartTime)
      (fun r => r.presentEndTime) st.frameReport
      (fun r hr hid => (hpairs r hr hid).2.2.1)
    have h4 := phaseSum_eq_rawSum (fun r => r.driverStartTime)
      (fun r => r.driverEndTime) st.frameReport
      (fun r hr hid => (hpairs r hr hid).2.2.2.1)
    have h5 := phaseSum_eq_rawSum (fun r => r.osRenderQueueStartTime)
      (fun r => r.osRenderQueueEndTime) st.frameReport
      (fun r hr hid => (hpairs r hr hid).2.2.2.2.1)
    have h6 := phaseSum_eq_rawSum (fun r => r.gpuRenderStartTime)
      (fun r => r.gpuRenderEndTime) st.frameReport
      (fun r hr hid => (hpairs r hr hid).2.2.2.2.2)
    unfold SLReflex_GetLatencyStats
    simp [hi, hsdk, hla, statsFold_eq, hpos, Nat.pos_iff_ne_zero.mp hpos,
      h1, h2, h3, h4, h5, h6]
  · unfold SLReflex_GetLatencyStats
    simp [hi, hsdk, hla, statsFold_eq, hzero]
  · unfold SLReflex_GetLatencyStats
    simp [hi, hsdk, hla]

/-- Report-ring entry that is an empty slot (zero frame id). -/
def zeroReport : FrameReport := ⟨0, 0, 0, 0, 0, 0, 0, 0, 0, 0, 0, 0, 0⟩

/-- Report-ring entry with frame id 1 and phase durations of
1,2,3,4,5,6 milliseconds. -/
def oneReport : FrameReport :=
  ⟨1, 0, 1000, 0, 2000, 0, 3000, 0, 4000, 0, 5000, 0, 6000⟩

/-- A 64-entry ring with one valid entry and 63 empty slots. -/
def ringEntries : List FrameReport := oneReport :: List.replicate 63 zeroReport

/-- Reflex state carrying the synthetic ring, data available. -/
def ringReflexState : ReflexState := ⟨true, false, true, ringEntries⟩

/-- SDK oracle returning the synthetic ring. -/
def sdkRing : Sdk := { sdkOk with reflexGetState := (eOk, ringReflexState) }

lemma filter_replicate_zero (n : Nat) :
    ((List.replicate n zeroReport).filter (fun r => r.frameID ≠ 0)) = [] := by
  induction n with
  | zero => simp
  | succ k ih =>
    simp [List.replicate_succ, ih]
    exact ⟨rfl, fun _ => rfl⟩

lemma ring_filter :
    (ringReflexState.frameReport.filter (fun r => r.frameID ≠ 0)) = [oneReport] := by
  simp only [ringReflexState, ringEntries, List.filter_cons]
  simp [filter_replicate_zero, oneReport]
  decide

/-- C3 witness: on the synthetic ring with `N = 1` valid entry and 63
empty slots, the stats are the durations of the single valid entry. -/
theorem C3_witness :
    validCount ringEntries = 1 ∧
    SLReflex_GetLatencyStats sdkRing readyState true =
      (some ⟨1, 2, 3, 4, 5, 6, 21⟩, readyState, [SdkCall.slReflexGetState]) := by
  refine ⟨by decide, ?_⟩
  have h := (C3_latency_stats_aggregation sdkRing readyState ringReflexState rfl rfl
      (by decide) (by decide)).1 rfl (by decide)
  rw [h]
  have hone : validCount ringReflexState.frameReport = 1 := by
    unfold validCount
    rw [ring_filter]
    rfl
  simp only [rawSum, ring_filter, hone]
  norm_num [oneReport]

section FramePreservation

variable (sdk : Sdk) (host : Host) (s : GState)

@[simp] lemma sleep_st : (SLReflex_Sleep sdk s).st = s := by
  simp only [SLReflex_Sleep]; split_ifs <;> rfl

@[simp] lemma setMarker_st (m : Int) : (SLReflex_SetMarker sdk s m).st = s := by
  simp only [SLReflex_SetMarker]; split_ifs <;> rfl

@[simp] lemma getState_st : (SLReflex_GetState sdk s).2.1 = s := by
  simp only [SLReflex_GetState]; split_ifs <;> rfl

@[simp] lemma getLatencyStats_st (nn : Bool) :
    (SLReflex_GetLatencyStats sdk s nn).2.1 = s := by
  simp only [SLReflex_GetLatencyStats]; split_ifs <;> rfl

@[simp] lemma tagResource_st (r : Option Nat) (bt : Nat) :
    (SLDLSS_TagResourceD3D12 sdk s r bt).st = s := by
  simp only [SLDLSS_TagResourceD3D12]; split_ifs <;> rfl

@[simp] lemma getOptimal_st (m : Nat) : (SLDLSS_GetOptimalSettings sdk s m).2.1 = s := by
  simp only [SLDLSS_GetOptimalSettings]; split_ifs <;> rfl

@[simp] lemma evaluate_st : (SLDLSS_Evaluate sdk s).st = s := by
  simp only [SLDLSS_Evaluate]; split_ifs <;> rfl

@[simp] lemma reflexSetMode_frameId (m : Int) :
    (SLReflex_SetMode sdk s m).st.frameId = s.frameId := by
  simp only [SLReflex_SetMode]; split_ifs <;> rfl

@[simp] lemma dlssSetOptions_frameId (m : Nat) :
    (SLDLSS_SetOptions sdk s m).st.frameId = s.frameId := by
  simp only [SLDLSS_SetOptions]; split_ifs <;> rfl

@[simp] lemma setConstants_frameId (c : Nat) :
    (SLDLSS_SetConstants sdk s c).st.frameId = s.frameId := by
  simp only [SLDLSS_SetConstants]; split_ifs <;> rfl

@[simp] lemma dlssRenderEvent_frameId (e : Int) :
    (OnDLSSRenderEvent sdk host s e).st.frameId = s.frameId := by
  simp only [OnDLSSRenderEvent]; split_ifs <;> rfl

@[simp] lemma dlss_setMode_frameId (m : Nat) :
    (SLDLSS_SetMode sdk s m).st.frameId = s.frameId := by
  rw [dlss_setMode_st_eq]; split_ifs <;> rfl

@[simp] lemma dlssg_setMode_frameId (m f : Nat) :
    (SLDLSSG_SetMode sdk s m f).st.frameId = s.frameId := by
  rw [dlssg_setMode_st_eq]; split_ifs <;> rfl

@[simp] lemma preset_frameId :
    (SLStreamline_EnableDLSSQualityWithFrameGen2x sdk s).st.frameId = s.frameId := by
  simp only [SLStreamline_EnableDLSSQualityWithFrameGen2x]
  split_ifs <;> simp

@[simp] lemma shutdown_st_frameId : (ShutdownStreamline s).st.frameId = s.frameId :=
  (shutdown_preserves_handles s).2.2.2

lemma reflexBeginFrame_st_init (hi : s.initialized = true) :
    (SLReflex_BeginFrame s).st = { s with frameId := (s.frameId + 1) % 2 ^ 64 } := by
  simp [SLReflex_BeginFrame, hi]

lemma reflexBeginFrame_initialized :
    (SLReflex_BeginFrame s).st.initialized = s.initialized := by
  simp only [SLReflex_BeginFrame]; split_ifs <;> rfl

end FramePreservation

lemma step_frameId_of_not_begin (sdk : Sdk) (host : Host) (s : GState) (op : Op)
    (h1 : op.isBeginFrame = false) (h2 : op.isInit = false) :
    (step sdk host s op).frameId = s.frameId := by
  cases op with
  | reflexSetMode m => simp [step]
  | reflexGetState => simp [step]
  | reflexBeginFrame => simp [Op.isBeginFrame] at h1
  | reflexSleep => simp [step]
  | reflexSetMarker m => simp [step]
  | reflexGetLatencyStats nn => simp [step]
  | reflexShutdown => simp [step, SLReflex_Shutdown]
  | reflexRenderEvent e =>
    simp only [Op.isBeginFrame, decide_eq_false_iff_not] at h1
    simp only [step, OnRenderEvent]
    split_ifs <;> simp_all
  | dlssBeginFrame => simp [Op.isBeginFrame] at h1
  | dlssSetViewport v => simp [step, SLDLSS_SetViewport]
  | dlssSetConstants c => simp [step]
  | dlssTagResource r bt => simp [step]
  | dlssSetOptions m => simp [step]
  | dlssGetOptimalSettings m => simp [step]
  | dlssEvaluate => simp [step]
  | dlssPrepareEvaluate => simp [step, SLDLSS_PrepareEvaluate]
  | dlssRenderEvent e => simp [step]
  | dlssSetModeLegacy m => simp [step]
  | dlssgSetModeLegacy m f => simp [step]
  | enableQualityFG2x => simp [step]
  | deviceEvent ev =>
    cases ev with
    | initEvent => simp [Op.isInit] at h2
    | shutdownEvent => simp [step, OnGraphicsDeviceEvent]
    | beforeReset => simp [step, OnGraphicsDeviceEvent]
    | afterReset => simp [step, OnGraphicsDeviceEvent]

lemma step_frameId_of_begin_init (sdk : Sdk) (host : Host) (s : GState) (op : Op)
    (h1 : op.isBeginFrame = true) (hi : s.initialized = true) :
    (step sdk host s op).frameId = (s.frameId + 1) % 2 ^ 64 := by
  cases op with
  | reflexBeginFrame => simp [step, SLReflex_BeginFrame, hi]
  | dlssBeginFrame => simp [step, SLDLSS_BeginFrame, hi]
  | reflexRenderEvent e =>
    have he : e = 0 := by simpa [Op.isBeginFrame] using h1
    simp [step, OnRenderEvent, he, SLReflex_BeginFrame, hi]
  | _ => simp_all [Op.isBeginFrame]

lemma step_frameId_of_begin_uninit (sdk : Sdk) (host : Host) (s : GState) (op : Op)
    (h1 : op.isBeginFrame = true) (hi : s.initialized = false) :
    (step sdk host s op).frameId = s.frameId := by
  cases op with
  | reflexBeginFrame => simp [step, SLReflex_BeginFrame, hi]
  | dlssBeginFrame => simp [step, SLDLSS_BeginFrame, hi]
  | reflexRenderEvent e =>
    have he : e = 0 := by simpa [Op.isBeginFrame] using h1
    simp [step, OnRenderEvent, he, SLReflex_BeginFrame, hi]
  | _ => simp_all [Op.isBeginFrame]

lemma countBeginOps_cons (op : Op) (t : List Op) :
    countBeginOps (op :: t) =
      (if op.isBeginFrame then 1 else 0) + countBeginOps t := by
  simp only [countBeginOps, List.filter_cons]
  split_ifs <;> simp [Nat.add_comm]

lemma countBeginOps_cons_of_begin (op : Op) (t : List Op)
    (hbf : op.isBeginFrame = true) :
    countBeginOps (op :: t) = 1 + countBeginOps t := by
  rw [countBeginOps_cons, hbf]
  simp

lemma countBeginOps_cons_of_not_begin (op : Op) (t : List Op)
    (hbf : op.isBeginFrame = false) :
    countBeginOps (op :: t) = countBeginOps t := by
  rw [countBeginOps_cons, hbf]
  simp

lemma runOps_frameId_bounds (sdk : Sdk) (host : Host) (l : List Op) :
    ∀ s : GState, (∀ op ∈ l, op.isInit = false) →
      s.frameId + countBeginOps l < 2 ^ 64 →
      s.frameId ≤ (runOps sdk host s l).frameId ∧
      (runOps sdk host s l).frameId ≤ s.frameId + countBeginOps l := by
  induction l with
  | nil => intro s _ _; simp [runOps, countBeginOps]
  | cons op t ih =>
    intro s hni hb
    have hni' : ∀ o ∈ t, o.isInit = false :=
      fun o ho => hni o (List.mem_cons_of_mem _ ho)
    have hopni : op.isInit = false := hni op (List.mem_cons_self _ _)
    have hrun : runOps sdk host s (op :: t) = runOps sdk host (step sdk host s op) t := rfl
    cases hbf : op.isBeginFrame with
    | false =>
      rw [countBeginOps_cons_of_not_begin op t hbf] at hb ⊢
      have hfid : (step sdk host s op).frameId = s.frameId :=
        step_frameId_of_not_begin sdk host s op hbf hopni
      have hb' : (step sdk host s op).frameId + countBeginOps t < 2 ^ 64 := by
        rw [hfid]; omega
      obtain ⟨hlo, hhi⟩ := ih (step sdk host s op) hni' hb'
      rw [hfid] at hlo hhi
      rw [hrun]
      constructor <;> omega
    | true =>
      rw [countBeginOps_cons_of_begin op t hbf] at hb ⊢
      cases hinit : s.initialized with
      | false =>
        have hfid : (step sdk host s op).frameId = s.frameId :=
          step_frameId_of_begin_uninit sdk host s op hbf hinit
        have hb' : (step sdk host s op).frameId + countBeginOps t < 2 ^ 64 := by
          rw [hfid]; omega
        obtain ⟨hlo, hhi⟩ := ih (step sdk host s op) hni' hb'
        rw [hfid] at hlo hhi
        rw [hrun]
        constructor <;> omega
      | true =>
        have hfid0 : (step sdk host s op).frameId = (s.frameId + 1) % 2 ^ 64 :=
          step_frameId_of_begin_init sdk host s op hbf hinit
        have hlt : s.frameId + 1 < 2 ^ 64 := by omega
        have hfid : (step sdk host s op).frameId = s.frameId + 1 := by
          rw [hfid0, Nat.mod_eq_of_lt hlt]
        have hb' : (step sdk host s op).frameId + countBeginOps t < 2 ^ 64 := by
          rw [hfid]; omega
        obtain ⟨hlo, hhi⟩ := ih (step sdk host s op) hni' hb'
        rw [hfid] at hlo hhi
        rw [hrun]
        constructor <;> omega

lemma init_success_frameId (sdk : Sdk) (s : GState) (h : s.initialized = false)
    (hret : (InitializeStreamline sdk s).ret = true) :
    (InitializeStreamline sdk s).st.frameId = 0 := by
  unfold InitializeStreamline at hret ⊢
  rw [h] at hret ⊢
  simp only [Bool.false_eq_true, if_false] at hret ⊢
  by_cases hdev :
      (if s.d3d12Device.isSome then s.d3d12Device else s.d3d11Device) = none
  · simp [hdev] at hret
  · by_cases hinitr : sdk.initResult = eOk
    · by_cases hsetr : sdk.setDeviceResult = eOk
      · simp [hdev, hinitr, hsetr]
      · simp [hdev, hinitr, hsetr] at hret
    · simp [hdev, hinitr] at hret

/-- A device-bound but not yet SDK-initialized state. -/
def devBoundState : GState :=
  { initialState with
      d3d12Device := some 11, d3d12Queue := some 12, d3d12v7Ptr := true,
      rendererType := GfxRenderer.d3d12 }

/-- The state right after a successful `InitializeStreamline`. -/
def postInitState : GState := (InitializeStreamline sdkOk devBoundState).st

/-- Run `n` consecutive `SLReflex_BeginFrame` calls. -/
def runBegin (n : Nat) (s : GState) : GState :=
  runOps sdkOk hostD3D12 s (List.replicate n Op.reflexBeginFrame)

lemma runBegin_spec (n : Nat) : ∀ s : GState, s.initialized = true →
    s.frameId < 2 ^ 64 →
    (runBegin n s).frameId = (s.frameId + n) % 2 ^ 64 ∧
    (runBegin n s).initialized = true := by
  induction n with
  | zero =>
    intro s hi hf
    refine ⟨?_, hi⟩
    show s.frameId = (s.frameId + 0) % 2 ^ 64
    omega
  | succ k ih =>
    intro s hi hf
    have hstep : runBegin (k + 1) s =
        runBegin k (SLReflex_BeginFrame s).st := by
      simp only [runBegin, List.replicate_succ]
      rfl
    have hst := reflexBeginFrame_st_init s hi
    have hi' : (SLReflex_BeginFrame s).st.initialized = true := by
      rw [reflexBeginFrame_initialized]; exact hi
    have hf' : (SLReflex_BeginFrame s).st.frameId < 2 ^ 64 := by
      rw [hst]
      exact Nat.mod_lt _ (by norm_num)
    obtain ⟨h1, h2⟩ := ih (SLReflex_BeginFrame s).st hi' hf'
    refine ⟨?_, ?_⟩
    · rw [hstep, h1, hst]
      show ((s.frameId + 1) % 2 ^ 64 + k) % 2 ^ 64 = (s.frameId + (k + 1)) % 2 ^ 64
      omega
    · rw [hstep]
      exact h2

/-- C10 counterexample: the frame counter is a 64-bit unsigned integer,
so `g_frameId++` wraps: starting from a successful initialization
(frame id 0), after `2^64 - 1` begin-frame calls the observable counter
is `2^64 - 1`, and one further begin-frame call makes it 0 — a strict
decrease, refuting "never decremented / monotonically non-decreasing
between two successful initializations". -/
theorem C10_counterexample :
    postInitState.frameId = 0 ∧
    postInitState.initialized = true ∧
    (runBegin (2 ^ 64 - 1) postInitState).frameId = 2 ^ 64 - 1 ∧
    (runBegin (2 ^ 64) postInitState).frameId = 0 ∧
    (runBegin (2 ^ 64) postInitState).frameId <
      (runBegin (2 ^ 64 - 1) postInitState).frameId := by
  have h0 : postInitState.frameId = 0 := rfl
  have hi : postInitState.initialized = true := rfl
  have ha := (runBegin_spec (2 ^ 64 - 1) postInitState hi
    (by rw [h0]; norm_num)).1
  have hb := (runBegin_spec (2 ^ 64) postInitState hi
    (by rw [h0]; norm_num)).1
  rw [h0] at ha hb
  have ha' : (runBegin (2 ^ 64 - 1) postInitState).frameId = 2 ^ 64 - 1 := by
    rw [ha, Nat.zero_add, Nat.mod_eq_of_lt (by norm_num)]
  have hb' : (runBegin (2 ^ 64) postInitState).frameId = 0 := by
    rw [hb, Nat.zero_add, Nat.mod_self]
  exact ⟨h0, hi, ha', hb', by rw [ha', hb']; norm_num⟩

/-- C10 amended: every successful initialization from the uninitialized
state resets the frame counter to zero; every modelled operation other
than the begin-frame entry points (and operations that can run
initialization) leaves the counter unchanged; a begin-frame call in the
initialized state increments it modulo `2^64`, while a begin-frame call
in the uninitialized state leaves it unchanged; and along any run
without initialization whose begin-frame count keeps the counter below
`2^64`, the value observable via `SLDLSS_GetFrameId` is monotonically
non-decreasing (it can decrease only at the 64-bit wraparound). -/
theorem C10_amended_frame_counter :
    (∀ (sdk : Sdk) (s : GState), s.initialized = false →
      (InitializeStreamline sdk s).ret = true →
      (InitializeStreamline sdk s).st.frameId = 0) ∧
    (∀ (sdk : Sdk) (host : Host) (s : GState) (op : Op),
      op.isBeginFrame = false → op.isInit = false →
      SLDLSS_GetFrameId (step sdk host s op) = SLDLSS_GetFrameId s) ∧
    (∀ (sdk : Sdk) (host : Host) (s : GState) (op : Op),
      op.isBeginFrame = true → s.initialized = true →
      SLDLSS_GetFrameId (step sdk host s op) =
        (SLDLSS_GetFrameId s + 1) % 2 ^ 64) ∧
    (∀ (sdk : Sdk) (host : Host) (s : GState) (op : Op),
      op.isBeginFrame = true → s.initialized = false →
      SLDLSS_GetFrameId (step sdk host s op) = SLDLSS_GetFrameId s) ∧
    (∀ (sdk : Sdk) (host : Host) (s : GState) (l : List Op),
      (∀ op ∈ l, op.isInit = false) →
      SLDLSS_GetFrameId s + countBeginOps l < 2 ^ 64 →
      SLDLSS_GetFrameId s ≤ SLDLSS_GetFrameId (runOps sdk host s l)) :=
  ⟨fun sdk s h hret => init_success_frameId sdk s h hret,
   fun sdk host s op h1 h2 => step_frameId_of_not_begin sdk host s op h1 h2,
   fun sdk host s op h1 hi => step_frameId_of_begin_init sdk host s op h1 hi,
   fun sdk host s op h1 hi => step_frameId_of_begin_uninit sdk host s op h1 hi,
   fun sdk host s l hni hb => (runOps_frameId_bounds sdk host l s hni hb).1⟩

/-- C10 witness: the amended theorem at concrete inputs — a successful
initialization resets the counter, a begin-frame call in the
uninitialized load-time state leaves it unchanged, and a
one-begin-frame run from the ready state does not decrease it. -/
theorem C10_witness :
    (InitializeStreamline sdkOk devBoundState).st.frameId = 0 ∧
    SLDLSS_GetFrameId (step sdkOk hostD3D12 initialState Op.reflexBeginFrame) =
      SLDLSS_GetFrameId initialState ∧
    SLDLSS_GetFrameId readyState ≤
      SLDLSS_GetFrameId (runOps sdkOk hostD3D12 readyState [Op.reflexBeginFrame]) :=
  ⟨C10_amended_frame_counter.1 sdkOk devBoundState rfl rfl,
   C10_amended_frame_counter.2.2.2.1 sdkOk hostD3D12 initialState Op.reflexBeginFrame
     rfl rfl,
   C10_amended_frame_counter.2.2.2.2 sdkOk hostD3D12 readyState [Op.reflexBeginFrame]
     (by decide) (by decide)⟩

end Streamline
